import Mathlib

/-!
Shallow embedding of the concurrency primitives of the `rust-atmoics`
repository, and theorems settling the specification claims about them.

The embedded components are:
* `src/section_5/arc_strong_and_weak.rs` — the reference-counted shared
  pointer (`Arc`/`Weak`) with an explicit control block (`ArcData`);
* `src/section_4/channel_one_shot.rs` — the one-shot channel;
* `src/section_4/spin_lock.rs` — the spin lock and its `Guard`.

Machine integers (`usize`) are modelled as `Nat` with explicit wrap-around
modulo `2 ^ 64` at the operations where overflow matters (`fetch_add` /
`fetch_sub`).  Atomic operations linearise, so a concurrent execution is
modelled as a sequence of the operations' single decisive read-modify-write
steps; each whole operation is a function on the control-block state.
-/

namespace RustAtomics

/-- Number of values of `usize` (64-bit platform): `2 ^ 64`. -/
def usizeW : Nat := 2 ^ 64

/-- `usize::MAX`, the sentinel value used by `Arc::get_mut`. -/
def usizeMax : Nat := usizeW - 1

/-- `usize::MAX >> 1`, the defensive overflow bound used by `clone`,
`downgrade` and `upgrade`. -/
def usizeHalfMax : Nat := usizeMax >>> 1

/-- Result of an operation that can abort the process
(`std::process::abort`), fail an assertion / `panic!`, or spin forever. -/
inductive Outcome (α : Type) where
  | ok (value : α)
  | abort
  | panic
  | spin
  deriving DecidableEq

/-- State of the control block `ArcData<T>` of
`src/section_5/arc_strong_and_weak.rs`, together with the two lifetime
facts the claims are about: whether the payload (`ManuallyDrop<T>`) has
been dropped yet, and whether the heap allocation (`Box`) is still live.

* `data_ref_count`  — the `AtomicUsize` counting `Arc`s (strong count);
* `alloc_ref_count` — the `AtomicUsize` counting `Weak`s, plus one if
  there are any `Arc`s (per the field's doc comment);
* `payload_present` — `true` until `ManuallyDrop::drop` has run;
* `block_alive`     — `true` until `Box::from_raw` has freed the block. -/
structure ArcState where
  data_ref_count : Nat
  alloc_ref_count : Nat
  payload_present : Bool
  block_alive : Bool
  deriving DecidableEq

/-- `Arc::new`: a fresh control block with both counters at `1`,
payload stored, block allocated. -/
def Arc.new : ArcState :=
  { data_ref_count := 1, alloc_ref_count := 1
    payload_present := true, block_alive := true }

/-- `Arc::strong_count`: acquire load of `data_ref_count`. -/
def Arc.strong_count (s : ArcState) : Nat := s.data_ref_count

/-- `Arc::weak_count`: acquire load of `alloc_ref_count`. -/
def Arc.weak_count (s : ArcState) : Nat := s.alloc_ref_count

/-- `impl Clone for Arc`: `fetch_add(1, Relaxed)` on `data_ref_count`
(wrapping), then `std::process::abort()` if the pre-increment value
exceeded `usize::MAX >> 1`. -/
def Arc.clone (s : ArcState) : Outcome ArcState :=
  let old := s.data_ref_count
  let s1 := { s with data_ref_count := (old + 1) % usizeW }
  if usizeHalfMax < old then Outcome.abort else Outcome.ok s1

/-- `impl Clone for Weak`: `fetch_add(1, Relaxed)` on `alloc_ref_count`
(wrapping), then `std::process::abort()` if the pre-increment value
exceeded `usize::MAX >> 1`. -/
def Weak.clone (s : ArcState) : Outcome ArcState :=
  let old := s.alloc_ref_count
  let s1 := { s with alloc_ref_count := (old + 1) % usizeW }
  if usizeHalfMax < old then Outcome.abort else Outcome.ok s1

/-- `Arc::downgrade`: load `alloc_ref_count`; spin while it equals the
`usize::MAX` sentinel left by a concurrent `get_mut`; `assert!` (panic)
that the observed value is at most `usize::MAX >> 1`; then CAS it to
`n + 1`.  Without interference the first CAS succeeds. -/
def Arc.downgrade (s : ArcState) : Outcome ArcState :=
  let n := s.alloc_ref_count
  if n = usizeMax then Outcome.spin
  else if usizeHalfMax < n then Outcome.panic
  else Outcome.ok { s with alloc_ref_count := n + 1 }

/-- `Weak::upgrade`: load `data_ref_count`; if zero return `None`;
`assert!` (panic) that the observed value is at most `usize::MAX >> 1`;
then CAS it to `n + 1` and return `Some`.  The returned `Bool` records
whether a `Some` was produced.  Without interference the first CAS
succeeds. -/
def Weak.upgrade (s : ArcState) : Outcome (Bool × ArcState) :=
  let n := s.data_ref_count
  if n = 0 then Outcome.ok (false, s)
  else if usizeHalfMax < n then Outcome.panic
  else Outcome.ok (true, { s with data_ref_count := n + 1 })

/-- `Arc::get_mut`: CAS `alloc_ref_count` from exactly `1` to the
`usize::MAX` sentinel (fail means other `Weak`s exist, or the internal
weak is locked); load `data_ref_count` and test it against `1`; store
`1` back into `alloc_ref_count`; return the mutable reference only if
the strong count was `1`.  The returned `Bool` records whether a
`Some(&mut T)` was produced. -/
def Arc.get_mut (s : ArcState) : Bool × ArcState :=
  if s.alloc_ref_count ≠ 1 then (false, s)
  else
    let s1 := { s with alloc_ref_count := usizeMax }
    let is_unique : Bool := s1.data_ref_count == 1
    let s2 := { s1 with alloc_ref_count := 1 }
    if is_unique then (true, s2) else (false, s2)

/-- `impl Drop for Weak`: `fetch_sub(1, Release)` on `alloc_ref_count`
(wrapping); if the pre-decrement value was `1`, free the control block
(`Box::from_raw`). -/
def Weak.drop (s : ArcState) : ArcState :=
  let old := s.alloc_ref_count
  let s1 := { s with alloc_ref_count := (old + usizeW - 1) % usizeW }
  if old = 1 then { s1 with block_alive := false } else s1

/-- `impl Drop for Arc`: `fetch_sub(1, Release)` on `data_ref_count`
(wrapping); if the pre-decrement value was `1`, run the payload's
destructor (`ManuallyDrop::drop`); then — unconditionally, as the
source places `drop(Weak { ptr })` outside the `if` — drop a `Weak`,
decrementing `alloc_ref_count`.  The returned `Bool` records whether
the payload destructor ran during this drop. -/
def Arc.drop (s : ArcState) : ArcState × Bool :=
  let old := s.data_ref_count
  let s1 := { s with data_ref_count := (old + usizeW - 1) % usizeW }
  if old = 1 then
    (Weak.drop { s1 with payload_present := false }, true)
  else
    (Weak.drop s1, false)

/-- An operation a thread holding a live `Arc` handle may perform:
clone it, or drop it. -/
inductive ArcOp where
  | clone
  | drop
  deriving DecidableEq

/-- Run a linearised sequence of `Arc` clone/drop operations from a
state, accumulating how many times the payload destructor has run.
`none` means a `clone` aborted the process. -/
def execOps : List ArcOp → ArcState → Nat → Option (ArcState × Nat)
  | [], s, c => some (s, c)
  | ArcOp.clone :: rest, s, c =>
    match Arc.clone s with
    | Outcome.ok t => execOps rest t c
    | _ => none
  | ArcOp.drop :: rest, s, c =>
    let r := Arc.drop s
    execOps rest r.1 (if r.2 then c + 1 else c)

/-- Panics the one-shot channel of `src/section_4/channel_one_shot.rs`
can raise: `panic!("can't send more than one message")` on a second
`send`, and `panic!("no message available!")` on a `receive` with no
unreceived message. -/
inductive ChanError where
  | doubleSend
  | noMessage
  deriving DecidableEq

/-- State of `Channel<T>` of `src/section_4/channel_one_shot.rs`:
`message` models the `UnsafeCell<MaybeUninit<T>>` slot (`none` while
uninitialised), `in_use` and `ready` the two `AtomicBool`s. -/
structure Channel (α : Type) where
  message : Option α
  in_use : Bool
  ready : Bool
  deriving DecidableEq

/-- `Channel::new`: uninitialised slot, both flags `false`. -/
def Channel.new {α : Type} : Channel α :=
  { message := none, in_use := false, ready := false }

/-- `Channel::send`: `in_use.swap(true, Relaxed)`; panic if the old
value was `true`; otherwise write the message into the slot and store
`ready = true` with release ordering. -/
def Channel.send {α : Type} (c : Channel α) (m : α) :
    Except ChanError Unit × Channel α :=
  let old := c.in_use
  let c1 := { c with in_use := true }
  if old then (Except.error ChanError.doubleSend, c1)
  else (Except.ok (), { c1 with message := some m, ready := true })

/-- `Channel::receive`: `ready.swap(false, Acquire)`; panic if the old
value was `false`; otherwise read the slot (`assume_init_read`). -/
def Channel.receive {α : Type} (c : Channel α) :
    Except ChanError (Option α) × Channel α :=
  let old := c.ready
  let c1 := { c with ready := false }
  if old then (Except.ok c1.message, c1)
  else (Except.error ChanError.noMessage, c1)

/-- `Channel::is_ready`: relaxed load of `ready`. -/
def Channel.is_ready {α : Type} (c : Channel α) : Bool := c.ready

/-- `SpinLock<T>` of `src/section_4/spin_lock.rs`: the `locked`
`AtomicBool` plus the protected value `T`. -/
structure SpinLock (α : Type) where
  locked : Bool
  value : α

/-- A configuration of one spin lock together with the number of live
`Guard` values currently in existence for it. -/
structure LockWorld (α : Type) where
  lock : SpinLock α
  guards : Nat

/-- Atomic transitions of the spin lock system.

* `lockAcquire` — `SpinLock::lock` returns: the `locked.swap(true,
  Acquire)` observed `false` (otherwise the caller keeps spinning and
  the state does not change), leaving `locked = true` and creating a
  `Guard`;
* `guardWrite` — a holder of a live `Guard` writes the protected value
  through `DerefMut`;
* `guardDrop` — `impl Drop for Guard` runs on a live `Guard`, storing
  `locked = false` with release ordering. -/
inductive LockStep {α : Type} : LockWorld α → LockWorld α → Prop
  | lockAcquire (w : LockWorld α) :
      w.lock.locked = false →
      LockStep w { lock := { locked := true, value := w.lock.value },
                   guards := w.guards + 1 }
  | guardWrite (w : LockWorld α) (v : α) :
      1 ≤ w.guards →
      LockStep w { lock := { locked := w.lock.locked, value := v },
                   guards := w.guards }
  | guardDrop (w : LockWorld α) :
      1 ≤ w.guards →
      LockStep w { lock := { locked := false, value := w.lock.value },
                   guards := w.guards - 1 }

/-- Configurations reachable from `SpinLock::new v` (unlocked, no
guards) by the transitions of `LockStep`. -/
inductive LockReachable {α : Type} (v : α) : LockWorld α → Prop
  | base : LockReachable v { lock := { locked := false, value := v }, guards := 0 }
  | step {w t : LockWorld α} :
      LockReachable v w → LockStep w t → LockReachable v t

/-- Claim C1: the claim says a non-last `Arc` drop leaves `alloc_ref_count`
unchanged, so `alloc_ref_count ≥ 1` whenever `data_ref_count ≥ 1`.  The code
violates this: `drop(Weak { ptr })` sits outside the last-reference branch of
`impl Drop for Arc`, so dropping one of two `Arc`s (no `Weak`s) takes
`alloc_ref_count` from `1` to `0` and frees the control block while
`data_ref_count` is still `1`. -/
theorem arc_nonlast_drop_frees_block :
    Arc.clone Arc.new = Outcome.ok ⟨2, 1, true, true⟩ ∧
    Arc.drop ⟨2, 1, true, true⟩ = (⟨1, 0, true, false⟩, false) := by
  decide

/-- Claim C2: the claim says that over any interleaving of clones and drops
the payload destructor runs exactly once, after the last `Arc` drop, on a
live control block.  Evaluating the linearised trace `clone; drop; drop`
from a fresh `Arc`: after the first (non-last) drop the control block is
already freed (`block_alive = false`) while one `Arc` is still live, and the
final drop then runs the payload destructor on the freed block and wraps
`alloc_ref_count` from `0` to `usize::MAX`. -/
theorem arc_destructor_runs_on_freed_block :
    execOps [ArcOp.clone, ArcOp.drop] Arc.new 0 = some (⟨1, 0, true, false⟩, 0) ∧
    execOps [ArcOp.clone, ArcOp.drop, ArcOp.drop] Arc.new 0 =
      some (⟨0, usizeMax, false, false⟩, 1) := by
  decide

/-- Claim C3 (counterexample): at a state whose observed strong count is
`2 ^ 63` (nonzero, reachable by `2 ^ 63 - 1` clones none of which aborts),
`Weak::upgrade` neither returns `Some` nor increments the count: the
`assert!(n <= usize::MAX >> 1)` fails, i.e. the call panics. -/
theorem upgrade_overflow_panics :
    Weak.upgrade ⟨2 ^ 63, 1, true, true⟩ = Outcome.panic ∧
    (⟨2 ^ 63, 1, true, true⟩ : ArcState).data_ref_count ≠ 0 ∧
    Weak.upgrade ⟨2 ^ 63, 1, true, true⟩ ≠
      Outcome.ok (true, ⟨2 ^ 63 + 1, 1, true, true⟩) := by
  decide

/-- Claim C3 (amended): provided the observed strong count is within the
defensive bound `usize::MAX >> 1`, `upgrade` returns `None` exactly when the
count is zero and otherwise increments it by exactly one and returns
`Some`. -/
theorem upgrade_amended (s : ArcState) (h : s.data_ref_count ≤ usizeHalfMax) :
    (s.data_ref_count = 0 → Weak.upgrade s = Outcome.ok (false, s)) ∧
    (s.data_ref_count ≠ 0 →
      Weak.upgrade s =
        Outcome.ok (true, { s with data_ref_count := s.data_ref_count + 1 })) := by
  refine ⟨fun h0 => ?_, fun h0 => ?_⟩
  · simp [Weak.upgrade, h0]
  · simp [Weak.upgrade, h0, not_lt.mpr h]

/-- Witness for `upgrade_amended` at a fresh control block. -/
theorem upgrade_amended_witness :
    Arc.new.data_ref_count ≤ usizeHalfMax ∧ Arc.new.data_ref_count ≠ 0 ∧
    Weak.upgrade Arc.new =
      Outcome.ok (true, { Arc.new with data_ref_count := Arc.new.data_ref_count + 1 }) :=
  ⟨by decide, by decide, (upgrade_amended Arc.new (by decide)).2 (by decide)⟩

/-- Claim C4: `Arc::get_mut` succeeds exactly when both counters are `1`
(the caller holds the sole `Arc` and no `Weak`s exist), and in every case —
success, other `Weak`s present, or other `Arc`s present — the control-block
state it leaves behind equals the state it started from (the sentinel swap
of `alloc_ref_count` is always restored). -/
theorem get_mut_iff_unique (s : ArcState) :
    ((Arc.get_mut s).1 = true ↔ (s.alloc_ref_count = 1 ∧ s.data_ref_count = 1)) ∧
    (Arc.get_mut s).2 = s := by
  obtain ⟨d, a, p, b⟩ := s
  unfold Arc.get_mut
  by_cases ha : a = 1
  · subst ha
    by_cases hd : d = 1
    · subst hd; simp
    · simp [hd]
  · simp [ha]

/-- Claim C5 (counterexample): at a state whose `alloc_ref_count` is
`2 ^ 63` (above the bound, reachable by `Weak` clones none of which
aborts), `Arc::downgrade` panics via `assert!(n <= usize::MAX >> 1)` —
a catchable unwind of the calling thread — rather than aborting the
process as the claim states. -/
theorem downgrade_overflow_not_abort :
    Arc.downgrade ⟨1, 2 ^ 63, true, true⟩ = Outcome.panic ∧
    (Outcome.panic : Outcome ArcState) ≠ Outcome.abort := by
  decide

/-- Claim C5 (amended): `Arc::clone` and `Weak::clone` abort the process
when the pre-increment counter value exceeds `usize::MAX >> 1` and
otherwise increment by exactly one; `Arc::downgrade` spins on the
`usize::MAX` sentinel, fails an assertion (panic, not abort) when the
observed non-sentinel value exceeds `usize::MAX >> 1` — before any
increment — and otherwise increments by exactly one. -/
theorem overflow_behaviour (s : ArcState) :
    (usizeHalfMax < s.data_ref_count → Arc.clone s = Outcome.abort) ∧
    (s.data_ref_count ≤ usizeHalfMax →
      Arc.clone s = Outcome.ok { s with data_ref_count := s.data_ref_count + 1 }) ∧
    (usizeHalfMax < s.alloc_ref_count → Weak.clone s = Outcome.abort) ∧
    (s.alloc_ref_count ≤ usizeHalfMax →
      Weak.clone s = Outcome.ok { s with alloc_ref_count := s.alloc_ref_count + 1 }) ∧
    (s.alloc_ref_count = usizeMax → Arc.downgrade s = Outcome.spin) ∧
    (s.alloc_ref_count ≠ usizeMax → usizeHalfMax < s.alloc_ref_count →
      Arc.downgrade s = Outcome.panic) ∧
    (s.alloc_ref_count ≤ usizeHalfMax →
      Arc.downgrade s = Outcome.ok { s with alloc_ref_count := s.alloc_ref_count + 1 }) := by
  have hW : usizeHalfMax + 1 < usizeW := by decide
  have hM : usizeHalfMax < usizeMax := by decide
  refine ⟨fun h => ?_, fun h => ?_, fun h => ?_, fun h => ?_, fun h => ?_,
    fun h1 h2 => ?_, fun h => ?_⟩
  · simp [Arc.clone, h]
  · have hlt : s.data_ref_count + 1 < usizeW := by omega
    simp [Arc.clone, not_lt.mpr h, Nat.mod_eq_of_lt hlt]
  · simp [Weak.clone, h]
  · have hlt : s.alloc_ref_count + 1 < usizeW := by omega
    simp [Weak.clone, not_lt.mpr h, Nat.mod_eq_of_lt hlt]
  · simp [Arc.downgrade, h]
  · simp [Arc.downgrade, h1, h2]
  · have hne : s.alloc_ref_count ≠ usizeMax := by omega
    simp [Arc.downgrade, hne, not_lt.mpr h]

/-- Witness for `overflow_behaviour`: `Arc::clone` past the bound aborts,
and `Arc::downgrade` of a fresh block increments `alloc_ref_count` by
one. -/
theorem overflow_behaviour_witness :
    (usizeHalfMax < (⟨2 ^ 63, 1, true, true⟩ : ArcState).data_ref_count ∧
      Arc.clone ⟨2 ^ 63, 1, true, true⟩ = Outcome.abort) ∧
    (Arc.new.alloc_ref_count ≤ usizeHalfMax ∧
      Arc.downgrade Arc.new =
        Outcome.ok { Arc.new with alloc_ref_count := Arc.new.alloc_ref_count + 1 }) :=
  ⟨⟨by decide, (overflow_behaviour _).1 (by decide)⟩,
   ⟨by decide, (overflow_behaviour _).2.2.2.2.2.2 (by decide)⟩⟩

/-- Claim C9: after `Arc::new` followed by one `downgrade`, the externally
observed weak count (`Arc::weak_count`, the load of `alloc_ref_count`)
equals `2`; dropping that `Weak` brings it back to `1`, without freeing
anything. -/
theorem weak_count_after_downgrade :
    Arc.downgrade Arc.new = Outcome.ok ⟨1, 2, true, true⟩ ∧
    Arc.weak_count ⟨1, 2, true, true⟩ = 2 ∧
    Weak.drop ⟨1, 2, true, true⟩ = ⟨1, 1, true, true⟩ ∧
    Arc.weak_count ⟨1, 1, true, true⟩ = 1 := by
  decide

/-- Claim C6: on a fresh one-shot channel, `send m` succeeds and a
subsequent `receive` returns exactly `m`, leaving `ready = false`. -/
theorem one_shot_send_receive (α : Type) (m : α) :
    ((Channel.new : Channel α).send m).1 = Except.ok () ∧
    (((Channel.new : Channel α).send m).2.receive).1 = Except.ok (some m) ∧
    (((Channel.new : Channel α).send m).2.receive).2.ready = false :=
  ⟨rfl, rfl, rfl⟩

/-- Claim C7: `receive` on a channel whose `ready` flag is `false` — fresh,
or already drained — panics with the no-message protocol violation and
leaves the channel state (message slot included) unchanged. -/
theorem receive_without_message_errors (α : Type) (c : Channel α)
    (h : c.ready = false) :
    (c.receive).1 = Except.error ChanError.noMessage ∧ (c.receive).2 = c := by
  obtain ⟨msg, u, r⟩ := c
  have hr : r = false := h
  subst hr
  exact ⟨rfl, rfl⟩

/-- Witness for `receive_without_message_errors` at a fresh channel. -/
theorem receive_without_message_errors_witness :
    ((Channel.new : Channel Nat).ready = false) ∧
    ((Channel.new : Channel Nat).receive).1 = Except.error ChanError.noMessage ∧
    ((Channel.new : Channel Nat).receive).2 = (Channel.new : Channel Nat) :=
  ⟨rfl, (receive_without_message_errors Nat Channel.new rfl).1,
    (receive_without_message_errors Nat Channel.new rfl).2⟩

/-- Claim C10: the first successful `send` sets `in_use`; `receive` never
touches `in_use`; and on any channel whose `in_use` flag is set, `send`
fails with the double-send protocol violation — even after a `receive`
has drained the message, so a drained channel can never be reused. -/
theorem in_use_never_reset (α : Type) (c : Channel α) (m m2 : α)
    (h : c.in_use = true) :
    ((Channel.new : Channel α).send m).2.in_use = true ∧
    (c.send m).1 = Except.error ChanError.doubleSend ∧
    (c.receive).2.in_use = c.in_use ∧
    ((c.receive).2.send m2).1 = Except.error ChanError.doubleSend := by
  obtain ⟨msg, u, r⟩ := c
  have hu : u = true := h
  subst hu
  cases r <;> exact ⟨rfl, rfl, rfl, rfl⟩

/-- Witness for `in_use_never_reset` on the channel obtained by sending on
a fresh channel: a second send fails, and a send after draining fails. -/
theorem in_use_never_reset_witness :
    (((Channel.new : Channel Nat).send 1).2.in_use = true) ∧
    ((((Channel.new : Channel Nat).send 0).2.send 1).1 =
      Except.error ChanError.doubleSend) ∧
    (((((Channel.new : Channel Nat).send 0).2.receive).2.send 2).1 =
      Except.error ChanError.doubleSend) :=
  ⟨(in_use_never_reset Nat ((Channel.new : Channel Nat).send 0).2 1 2 rfl).1,
   (in_use_never_reset Nat ((Channel.new : Channel Nat).send 0).2 1 2 rfl).2.1,
   (in_use_never_reset Nat ((Channel.new : Channel Nat).send 0).2 1 2 rfl).2.2.2⟩

/-- Claim C8: in every configuration reachable from a fresh spin lock by
the atomic transitions (`lock()` completing its swap of `locked` from
`false` to `true`, guard writes, and guard drops storing `locked = false`),
at most one `Guard` exists, and the existence of a `Guard` implies the
`locked` flag is `true`. -/
theorem spinlock_at_most_one_guard {α : Type} (v : α) (w : LockWorld α)
    (h : LockReachable v w) :
    w.guards ≤ 1 ∧ (1 ≤ w.guards → w.lock.locked = true) := by
  induction h with
  | base => exact ⟨Nat.zero_le 1, fun h1 => absurd h1 (Nat.not_succ_le_zero 0)⟩
  | step hr hs ih =>
    rename_i w2 t
    cases hs with
    | lockAcquire hfree =>
      have hg : w2.guards = 0 := by
        rcases Nat.eq_zero_or_pos w2.guards with h0 | h1
        · exact h0
        · have hl := ih.2 h1
          rw [hfree] at hl
          exact absurd hl (by simp)
      refine ⟨?_, fun _ => rfl⟩
      show w2.guards + 1 ≤ 1
      omega
    | guardWrite v2 hg =>
      exact ⟨ih.1, fun h1 => ih.2 h1⟩
    | guardDrop hg =>
      refine ⟨?_, fun h1 => ?_⟩
      · show w2.guards - 1 ≤ 1
        have h2 := ih.1
        omega
      · have h2 := ih.1
        have h3 : 1 ≤ w2.guards - 1 := h1
        exact absurd h3 (by omega)

/-- Witness for `spinlock_at_most_one_guard` at the configuration reached
by one successful `lock()` from a fresh lock. -/
theorem spinlock_at_most_one_guard_witness :
    ({ lock := { locked := true, value := (0 : Nat) }, guards := 1 } :
        LockWorld Nat).guards ≤ 1 ∧
    (1 ≤ ({ lock := { locked := true, value := (0 : Nat) }, guards := 1 } :
        LockWorld Nat).guards →
      ({ lock := { locked := true, value := (0 : Nat) }, guards := 1 } :
        LockWorld Nat).lock.locked = true) :=
  spinlock_at_most_one_guard 0 _
    (LockReachable.step LockReachable.base (LockStep.lockAcquire _ rfl))

end RustAtomics
